import Mathlib

/-!
# Verification of the quick-vrt stabilization and diff pipeline

Shallow embedding of the core of `src/index.js` of the quick-vrt repository:
the Differencer (`generateDiff`), the Orchestrator loop (`runVRT`), the
Stabilizer sub-routines (`disableAnimations`, `triggerLazyLoading`,
`maskVideos`) and the Capturer's screenshot retry logic, together with
theorems about the spec's testable properties.
-/

namespace QuickVRT

/-! ## Raster images (pngjs `PNG` objects as used by `generateDiff`) -/

/-- One RGBA pixel with byte channels, as decoded from a PNG buffer. -/
structure Pixel where
  r : ℕ
  g : ℕ
  b : ℕ
  a : ℕ
deriving DecidableEq, Repr

/-- A decoded raster image: width, height and a row-major RGBA pixel buffer
(a pngjs `PNG` object as produced by `PNG.sync.read` in `generateDiff`,
`src/index.js:1139-1140`, with the flat byte buffer grouped into pixels). -/
structure Image where
  width : ℕ
  height : ℕ
  data : List Pixel
deriving DecidableEq, Repr

/-- A decoded PNG's buffer holds exactly `width * height` pixels. -/
def Image.wellFormed (img : Image) : Prop :=
  img.data.length = img.width * img.height

/-- The zero pixel: pngjs zero-fills the buffer of `new PNG(...)`. -/
def zeroPixel : Pixel := ⟨0, 0, 0, 0⟩

/-! ## Per-pixel comparison

Modelled from the spec: the per-pixel comparison is performed by the external
`pixelmatch` dependency (not part of this repository); `generateDiff` calls it
with `threshold: 0.1` (`src/index.js:1181-1188`).  The spec describes it as a
perceptual color-distance threshold on a 0-1 scale deciding whether a pixel
counts as "different".  We model pixelmatch's YIQ color metric exactly, over
exact rationals; its anti-aliasing refinement is not mentioned by the spec and
is not modelled. -/

/-- Modelled from the spec: blending of a channel value `c` with alpha `a`
onto a white background, as done by the pixelmatch dependency before
computing the color distance. -/
def blend (c a : ℕ) : ℚ :=
  255 + ((c : ℚ) - 255) * a / 255

/-- Modelled from the spec: luma (Y) component of the YIQ color space used by
the pixelmatch dependency's perceptual metric. -/
def rgb2y (r g b : ℚ) : ℚ :=
  r * 0.29889531 + g * 0.58662247 + b * 0.11448223

/-- Modelled from the spec: I component of the YIQ color space. -/
def rgb2i (r g b : ℚ) : ℚ :=
  r * 0.59597799 - g * 0.27417610 - b * 0.32180189

/-- Modelled from the spec: Q component of the YIQ color space. -/
def rgb2q (r g b : ℚ) : ℚ :=
  r * 0.21147017 - g * 0.52261711 + b * 0.31114694

/-- Modelled from the spec: squared perceptual (YIQ) color distance between two
RGBA pixels after alpha blending, as computed by the pixelmatch dependency. -/
def deltaSq (p q : Pixel) : ℚ :=
  let r1 := blend p.r p.a
  let g1 := blend p.g p.a
  let b1 := blend p.b p.a
  let r2 := blend q.r q.a
  let g2 := blend q.g q.a
  let b2 := blend q.b q.a
  let dy := rgb2y r1 g1 b1 - rgb2y r2 g2 b2
  let di := rgb2i r1 g1 b1 - rgb2i r2 g2 b2
  let dq := rgb2q r1 g1 b1 - rgb2q r2 g2 b2
  0.5053 * dy ^ 2 + 0.299 * di ^ 2 + 0.1957 * dq ^ 2

/-- Modelled from the spec: a pixel pair counts as "different" when its
perceptual color distance on the 0-1 scale exceeds the threshold `t`,
i.e. when the squared YIQ delta exceeds `35215 * t ^ 2` (35215 being the
maximum possible squared YIQ delta, so the threshold is on a 0-1 scale). -/
def pixelDiffers (p q : Pixel) (t : ℚ) : Bool :=
  decide (35215 * t ^ 2 < deltaSq p q)

/-- Modelled from the spec: the mismatch count returned by
`pixelmatch(before, after, out, width, height, options)`: the number of
positions in the `width * height` grid whose pixels differ beyond the
threshold. -/
def pixelmatchCount (d1 d2 : List Pixel) (w h : ℕ) (t : ℚ) : ℕ :=
  (List.range (w * h)).countP
    (fun i => pixelDiffers (d1.getD i zeroPixel) (d2.getD i zeroPixel) t)

/-! ## Percentage formatting -/

/-- Two-digit zero padding of the fractional part of a formatted number. -/
def pad2 (k : ℕ) : String :=
  if k < 10 then "0" ++ toString k else toString k

/-- JavaScript's `Number.prototype.toFixed(2)` on a nonnegative rational:
round to the nearest hundredth (half away from zero for nonnegative input)
and print with exactly two decimals, as in
`((pixelDiff / totalPixels) * 100).toFixed(2)` (`src/index.js:1193`). -/
def toFixed2 (x : ℚ) : String :=
  let n : ℕ := (⌊x * 100 + 1 / 2⌋).toNat
  toString (n / 100) ++ "." ++ pad2 (n % 100)

/-! ## Geometry reconciliation and `generateDiff` (`src/index.js:1138-1196`) -/

/-- The size-mismatch warning string built at `src/index.js:1148`. -/
def sizeWarningMsg (beforeImg afterImg : Image) : String :=
  "Image size mismatch: Before(" ++ toString beforeImg.width ++ "×"
    ++ toString beforeImg.height ++ ") vs After(" ++ toString afterImg.width
    ++ "×" ++ toString afterImg.height ++ ")"

/-- `new PNG(w, h)` (zero-filled) followed by
`PNG.bitblt(img, dst, 0, 0, img.width, img.height, 0, 0)`: the original image
placed at the top-left origin of a `w × h` canvas, remainder zero-filled
(`src/index.js:1166-1170`). -/
def padTo (img : Image) (w h : ℕ) : Image :=
  { width := w
    height := h
    data := (List.range (w * h)).map (fun i =>
      let x := i % w
      let y := i / w
      if x < img.width ∧ y < img.height then
        img.data.getD (y * img.width + x) zeroPixel
      else zeroPixel) }

/-- The two buffers actually handed to pixelmatch, with the width and height
passed alongside them. -/
structure Reconciled where
  cmpBefore : Image
  cmpAfter : Image
  width : ℕ
  height : ℕ
deriving DecidableEq, Repr

/-- Geometry reconciliation of the dimension-mismatch branch of `generateDiff`
(`src/index.js:1151-1176`): resample the after image to the before image's
dimensions (sharp, `fit: fill`) or, when the resize operation fails, pad both
images to the element-wise maximum dimensions.
`resize img w h` models the `sharp(...).resize(w, h).png().toBuffer()`
pipeline inside the `try` block: `none` means the operation threw, taking
the `catch` branch. -/
def reconcileMismatch (resize : Image → ℕ → ℕ → Option Image)
    (beforeImg afterImg : Image) : Reconciled :=
  match resize afterImg beforeImg.width beforeImg.height with
  | some resized => ⟨beforeImg, resized, beforeImg.width, beforeImg.height⟩
  | none =>
    let w := max beforeImg.width afterImg.width
    let h := max beforeImg.height afterImg.height
    ⟨padTo beforeImg w h, padTo afterImg w h, w, h⟩

/-- The record returned by `generateDiff` (`src/index.js:1195`). -/
structure DiffResult where
  pixelDiff : ℕ
  diffPercentage : String
  sizeWarning : Option String
deriving DecidableEq, Repr

/-- `generateDiff(beforePath, afterPath, diffPath)` (`src/index.js:1138-1196`)
on two already-decoded images.  `sharpModule` models `require("sharp")` at
`src/index.js:1152`, which sits OUTSIDE the `try` block: `none` means the
module fails to load, in which case the exception escapes `generateDiff`
(hence the `Except` result).  When dimensions match the module is never
required.  The per-pixel threshold is the source's `threshold: 0.1`, and
`diffPercentage = ((pixelDiff / totalPixels) * 100).toFixed(2)`. -/
def generateDiff (sharpModule : Option (Image → ℕ → ℕ → Option Image))
    (beforeImg afterImg : Image) : Except String DiffResult :=
  if beforeImg.width = afterImg.width ∧ beforeImg.height = afterImg.height then
    let pd := pixelmatchCount beforeImg.data afterImg.data
      beforeImg.width beforeImg.height 0.1
    .ok { pixelDiff := pd
          diffPercentage :=
            toFixed2 ((pd : ℚ) / ((beforeImg.width : ℚ) * beforeImg.height) * 100)
          sizeWarning := none }
  else
    match sharpModule with
    | none => .error "Cannot find module sharp"
    | some resize =>
      let rcd := reconcileMismatch resize beforeImg afterImg
      let pd := pixelmatchCount rcd.cmpBefore.data rcd.cmpAfter.data
        rcd.width rcd.height 0.1
      .ok { pixelDiff := pd
            diffPercentage :=
              toFixed2 ((pd : ℚ) / ((rcd.width : ℚ) * rcd.height) * 100)
            sizeWarning := some (sizeWarningMsg beforeImg afterImg) }

/-! ## Orchestrator data model (`runVRT`, `src/index.js:905-1136`) -/

/-- One before/after URL combination under test. -/
structure UrlPair where
  before : String
  after : String
deriving DecidableEq, Repr

/-- The successful per-pair metric set pushed at `src/index.js:1093-1103`. -/
structure PairMetrics where
  beforeImage : String
  afterImage : String
  diffImage : String
  pixelDiff : ℕ
  diffPercentage : String
  sizeWarning : Option String
deriving DecidableEq, Repr

/-- One entry of the `results` list: either the metric fields or the `error`
field is populated (`src/index.js:1093-1118`). -/
structure CaptureResult where
  id : String
  beforeUrl : String
  afterUrl : String
  metrics : Option PairMetrics
  error : Option String
deriving DecidableEq, Repr

/-- The per-pair identifier `pair-<i+1>` built at `src/index.js:931`. -/
def pairId (i : ℕ) : String :=
  "pair-" ++ toString (i + 1)

/-- The parsed CLI options record handed to `runVRT`. -/
structure Options where
  width : ℕ
  height : ℕ
  concurrency : ℕ
  scrollDelay : ℕ
  lazyLoading : Bool
  disableAnimations : Bool
  maskVideos : Bool
  videoMaskColor : String
  userAgent : Option String
  output : String
  autoOpen : Bool
deriving DecidableEq, Repr

/-- The option fields the per-pair processing loop of `runVRT` actually
consults (`src/index.js:938-1103`): viewport size, user agent, scroll delay,
the three stabilizer toggles and the mask color.  `options.concurrency` is
parsed into `maxConcurrency` at `src/index.js:919` and never read again. -/
structure CaptureConfig where
  width : ℕ
  height : ℕ
  scrollDelay : ℕ
  lazyLoading : Bool
  disableAnimations : Bool
  maskVideos : Bool
  videoMaskColor : String
  userAgent : Option String
deriving DecidableEq, Repr

/-- Projection of the options onto the fields the pair loop reads. -/
def captureConfig (o : Options) : CaptureConfig :=
  { width := o.width
    height := o.height
    scrollDelay := o.scrollDelay
    lazyLoading := o.lazyLoading
    disableAnimations := o.disableAnimations
    maskVideos := o.maskVideos
    videoMaskColor := o.videoMaskColor
    userAgent := o.userAgent }

/-- The body of the `for` loop of `runVRT` (`src/index.js:929-1119`) for pair
`i`: the whole of page creation, both captures and the diff runs inside one
`try`; `env` abstracts that fallible work (browser plus file system), its
`Except` value being what the `try` block produces.  On success the metric
record is pushed, on any exception the catch block pushes
an error record carrying id, beforeUrl, afterUrl and error, and the loop
continues. -/
def processPair (env : ℕ → Except String PairMetrics) (i : ℕ)
    (pair : UrlPair) : CaptureResult :=
  match env i with
  | .ok m =>
    { id := pairId i
      beforeUrl := pair.before
      afterUrl := pair.after
      metrics := some m
      error := none }
  | .error e =>
    { id := pairId i
      beforeUrl := pair.before
      afterUrl := pair.after
      metrics := none
      error := some e }

/-- The sequential pair loop of `runVRT` (`src/index.js:918-1120`):
`maxConcurrency` is parsed from the options and never consulted; pairs are
processed strictly in input order, each through `processPair`. -/
def runVRT (pairs : List UrlPair) (opts : Options)
    (env : CaptureConfig → ℕ → Except String PairMetrics) : List CaptureResult :=
  let _maxConcurrency := opts.concurrency
  (List.range pairs.length).map
    (fun i => processPair (env (captureConfig opts)) i (pairs.getD i ⟨"", ""⟩))

/-! ## Stabilizer sub-routines never propagate exceptions
(`maskVideos` `src/index.js:276-446`, `disableAnimations` `src/index.js:448-686`,
`triggerLazyLoading` `src/index.js:734-855`) -/

/-- Sequential execution of the awaited steps of a routine body: the first
exception aborts the rest of the body. -/
def runSteps : List (Except String Unit) → Except String Unit
  | [] => .ok ()
  | s :: rest =>
    match s with
    | .error e => .error e
    | .ok _ => runSteps rest

/-- `maskVideos(page, maskColor)`: the entire body runs inside `try`; the
`catch` logs a warning (`src/index.js:443-445`) and the function returns
normally.  The awaited body steps are abstracted by their outcomes; the
returned list is the warnings printed. -/
def maskVideosRun (steps : List (Except String Unit)) :
    Except String (List String) :=
  match runSteps steps with
  | .ok _ => .ok []
  | .error e => .ok ["    Failed to mask dynamic content: " ++ e]

/-- `disableAnimations(page)`: the entire body runs inside `try`; the `catch`
logs a warning (`src/index.js:683-685`) and the function returns normally. -/
def disableAnimationsRun (steps : List (Except String Unit)) :
    Except String (List String) :=
  match runSteps steps with
  | .ok _ => .ok []
  | .error e => .ok ["    Failed to disable animations: " ++ e]

/-- `triggerLazyLoading(page, scrollDelay)`: the entire body runs inside
`try`; the `catch` logs a warning (`src/index.js:852-854`) and the function
returns normally. -/
def triggerLazyLoadingRun (steps : List (Except String Unit)) :
    Except String (List String) :=
  match runSteps steps with
  | .ok _ => .ok []
  | .error e => .ok ["    Stable lazy loading failed: " ++ e]

/-! ## The `disableAnimations` page-evaluate callback
(`src/index.js:524-677`) -/

/-- Which animation libraries the page's global scope exposes. -/
structure PageLibs where
  jquery : Bool
  gsap : Bool
  anime : Bool
  velocity : Bool
  aos : Bool
deriving DecidableEq, Repr

/-- Mutable in-page animation state touched by the evaluate callback. -/
structure PageAnimState where
  rafOverridden : Bool
  timersOverridden : Bool
  webAnimationsFinished : Bool
  jqueryFxOff : Bool
  gsapPaused : Bool
  animePaused : Bool
  velocityMocked : Bool
  aosDisabled : Bool
  animationEventsBlocked : Bool
deriving DecidableEq, Repr

/-- The fresh page state before the callback runs: nothing suppressed. -/
def initialAnimState : PageAnimState :=
  ⟨false, false, false, false, false, false, false, false, false⟩

/-- The `page.evaluate` callback of `disableAnimations`
(`src/index.js:524-677`), statement by statement: it overrides
`requestAnimationFrame`/`cancelAnimationFrame` (lines 534-540), overrides
`setTimeout`/`setInterval` (lines 543-553), pauses and finishes Web
Animations (lines 556-570), then executes `return new Promise(...)` at line
573.  That `return` ends the callback, so the statements after it — the
jQuery, GSAP, Anime.js, Three.js, Velocity.js and AOS suppression and the
animation-event capture listeners (lines 595-676) — are unreachable and
never run, whatever libraries the page exposes. -/
def disableAnimationsEval (libs : PageLibs) (s : PageAnimState) : PageAnimState :=
  let s1 := { s with rafOverridden := true }
  let s2 := { s1 with timersOverridden := true }
  let s3 := { s2 with webAnimationsFinished := true }
  let _unreachableLibs := libs
  s3

/-! ## Timer coercion installed by the callback (`src/index.js:533-553`) -/

/-- The delay actually scheduled by the overridden `window.setTimeout`
(`src/index.js:543-547`): delays under 100ms are coerced to 0. -/
def coercedTimeoutDelay (delay : ℤ) : ℤ :=
  if delay < 100 then 0 else delay

/-- The delay actually scheduled by the overridden `window.setInterval`
(`src/index.js:549-553`): delays under 100ms are coerced to 10000ms. -/
def coercedIntervalDelay (delay : ℤ) : ℤ :=
  if delay < 100 then 10000 else delay

/-- The timer delay used by the overridden `requestAnimationFrame`
(`src/index.js:534-536`): the callback is handed to the original
`setTimeout` with delay 0. -/
def rafTimerDelay : ℤ := 0

/-! ## Stabilization order inside `processPage` (`src/index.js:973-993`) -/

/-- The three stabilizer sub-routines. -/
inductive StabStep
  | animations
  | lazyLoad
  | masking
deriving DecidableEq, Repr

/-- Page aspects touched by the three routines. -/
structure PageStab where
  animStyleInjected : Bool
  lazyAttributesPromoted : Bool
  masksAdded : Bool
deriving DecidableEq, Repr

/-- The stabilization phase of `processPage` (`src/index.js:973-993`): each
sub-routine runs only when its option is not `false`, in the fixed source
order animations, then lazy loading, then masking, with pacing delays in
between.  Returns the mutated page and the trace of routines invoked. -/
def stabilizePage (cfg : CaptureConfig) (p : PageStab) : PageStab × List StabStep :=
  let r1 : PageStab × List StabStep :=
    if cfg.disableAnimations then
      ({ p with animStyleInjected := true }, [StabStep.animations])
    else (p, [])
  let r2 : PageStab × List StabStep :=
    if cfg.lazyLoading then
      ({ r1.1 with lazyAttributesPromoted := true }, r1.2 ++ [StabStep.lazyLoad])
    else r1
  let r3 : PageStab × List StabStep :=
    if cfg.maskVideos then
      ({ r2.1 with masksAdded := true }, r2.2 ++ [StabStep.masking])
    else r2
  r3

/-! ## Screenshot retry (`src/index.js:1018-1051`) -/

/-- The screenshot step of `processPage`: one `page.screenshot` attempt
inside `try`; on failure wait 1000ms, scroll to `(0, 0)` and retry exactly
once; the retry is not guarded, so its failure propagates.  `attempt1` and
`attempt2` are the outcomes of the first and (if reached) second
`page.screenshot` call; the result carries the number of attempts made and
whether the page was scrolled to the top before the last attempt. -/
def takeScreenshotWithRetry (attempt1 attempt2 : Except String Unit) :
    Except String (ℕ × Bool) :=
  match attempt1 with
  | .ok _ => .ok (1, false)
  | .error _ =>
    match attempt2 with
    | .ok _ => .ok (2, true)
    | .error e => .error e

/-! ## Sample data used by witnesses -/

/-- A 1×1 white image. -/
def whiteImg1 : Image := ⟨1, 1, [⟨255, 255, 255, 255⟩]⟩

/-- A 1×1 black image. -/
def blackImg1 : Image := ⟨1, 1, [⟨0, 0, 0, 255⟩]⟩

/-- A 2×1 black image (dimension-mismatched with the 1×1 ones). -/
def blackImg2 : Image := ⟨2, 1, [⟨0, 0, 0, 255⟩, ⟨0, 0, 0, 255⟩]⟩

/-- Default CLI options of `src/index.js:22-39`. -/
def sampleOptions : Options :=
  { width := 1280
    height := 720
    concurrency := 4
    scrollDelay := 500
    lazyLoading := true
    disableAnimations := true
    maskVideos := true
    videoMaskColor := "#808080"
    userAgent := none
    output := "./vrt-results"
    autoOpen := true }

/-- A successful metric set for one pair. -/
def sampleMetrics : PairMetrics :=
  { beforeImage := "screenshots/pair-1-before.png"
    afterImage := "screenshots/pair-1-after.png"
    diffImage := "diffs/pair-1-diff.png"
    pixelDiff := 0
    diffPercentage := "0.00"
    sizeWarning := none }

/-- An environment where every pair succeeds. -/
def envOk : CaptureConfig → ℕ → Except String PairMetrics :=
  fun _ _ => .ok sampleMetrics

/-- An environment where the first pair throws and the rest succeed. -/
def envFailFirst : CaptureConfig → ℕ → Except String PairMetrics :=
  fun _ i => if i = 0 then .error "net::ERR_NAME_NOT_RESOLVED" else .ok sampleMetrics

/-- A page whose global scope exposes all five animation libraries. -/
def allLibsPage : PageLibs := ⟨true, true, true, true, true⟩

/-- Capture options with all three stabilizer routines disabled. -/
def disabledConfig : CaptureConfig :=
  { width := 800
    height := 600
    scrollDelay := 500
    lazyLoading := false
    disableAnimations := false
    maskVideos := false
    videoMaskColor := "#808080"
    userAgent := none }

/-- A freshly loaded page, untouched by any stabilizer. -/
def freshPage : PageStab := ⟨false, false, false⟩

/-- Decode a list of decimal digit characters, most significant first. -/
def readNatAux (cs : List Char) (acc : ℕ) : ℕ :=
  cs.foldl (fun a c => a * 10 + (c.toNat - 48)) acc

/-- Recover the 1-based index from a `pair-<n>` identifier. -/
def decodePairId (s : String) : ℕ :=
  readNatAux (s.data.drop 5) 0

/-! ## Helper lemmas -/

lemma deltaSq_self (p : Pixel) : deltaSq p p = 0 := by
  simp [deltaSq, blend, rgb2y, rgb2i, rgb2q]

lemma pixelDiffers_self (p : Pixel) : pixelDiffers p p 0.1 = false := by
  simp [pixelDiffers, deltaSq_self]
  norm_num

lemma toFixed2_zero : toFixed2 0 = "0.00" := by
  unfold toFixed2
  norm_num
  rfl

lemma pixelmatchCount_self (d : List Pixel) (w h : ℕ) :
    pixelmatchCount d d w h 0.1 = 0 := by
  simp [pixelmatchCount, pixelDiffers_self]

lemma padTo_length (img : Image) (w h : ℕ) :
    (padTo img w h).data.length = w * h := by
  simp [padTo]

lemma digitChar_decode : ∀ d < 10, (Nat.digitChar d).toNat - 48 = d := by decide

lemma readNatAux_cons (c : Char) (ds : List Char) (acc : ℕ) :
    readNatAux (c :: ds) acc = readNatAux ds (acc * 10 + (c.toNat - 48)) := rfl

lemma readNatAux_toDigitsCore :
    ∀ (fuel n : ℕ), n < fuel →
      ∃ k, ∀ (ds : List Char) (acc : ℕ),
        readNatAux (Nat.toDigitsCore 10 fuel n ds) acc
          = readNatAux ds (acc * 10 ^ k + n) := by
  intro fuel
  induction fuel with
  | zero => intro n h; exact absurd h (Nat.not_lt_zero n)
  | succ f ih =>
    intro n hn
    by_cases h10 : n / 10 = 0
    · refine ⟨1, fun ds acc => ?_⟩
      have hlt : n < 10 := by omega
      have hmod : n % 10 = n := Nat.mod_eq_of_lt hlt
      simp only [Nat.toDigitsCore, h10, if_true, readNatAux_cons]
      rw [digitChar_decode _ (by omega : n % 10 < 10), hmod, pow_one]
    · obtain ⟨k, hk⟩ := ih (n / 10) (by omega)
      refine ⟨k + 1, fun ds acc => ?_⟩
      simp only [Nat.toDigitsCore, h10, if_false]
      rw [hk, readNatAux_cons, digitChar_decode _ (by omega : n % 10 < 10)]
      have hstep : acc * 10 ^ (k + 1) + n = (acc * 10 ^ k + n / 10) * 10 + n % 10 := by
        rw [pow_succ, ← mul_assoc]
        generalize acc * 10 ^ k = u
        omega
      rw [hstep]

lemma natRepr_decode (n : ℕ) : readNatAux (Nat.repr n).data 0 = n := by
  obtain ⟨k, hk⟩ := readNatAux_toDigitsCore (n + 1) n (Nat.lt_succ_self n)
  have hdata : (Nat.repr n).data = Nat.toDigitsCore 10 (n + 1) n [] := rfl
  rw [hdata, hk]
  simp [readNatAux]

lemma decodePairId_pairId (i : ℕ) : decodePairId (pairId i) = i + 1 := by
  have h1 : (pairId i).data = "pair-".data ++ (Nat.repr (i + 1)).data := rfl
  rw [decodePairId, h1, List.drop_left' (by rfl), natRepr_decode]

lemma pairId_inj (i j : ℕ) (h : pairId i = pairId j) : i = j := by
  have hd := congrArg decodePairId h
  rw [decodePairId_pairId, decodePairId_pairId] at hd
  omega

/-! ## Claim theorems -/

/-- Claim C1: for every pair of decoded raster images with equal width and
height, `generateDiff` returns `pixelDiff` equal to the number of pixel
positions whose perceptual color distance exceeds the default threshold 0.1
on the 0-1 scale, and `diffPercentage` equal to
`pixelDiff / (width * height) * 100` formatted to two decimal places; for
two byte-identical images it returns `pixelDiff = 0` and
`diffPercentage = "0.00"`. -/
theorem generateDiff_counts_thresholded_pixels
    (sharpModule : Option (Image → ℕ → ℕ → Option Image)) (b a : Image)
    (hw : b.width = a.width) (hh : b.height = a.height)
    (hpos : 0 < b.width * b.height) :
    ∃ r : DiffResult,
      generateDiff sharpModule b a = .ok r
      ∧ r.pixelDiff = (List.range (b.width * b.height)).countP
          (fun i => pixelDiffers (b.data.getD i zeroPixel) (a.data.getD i zeroPixel) 0.1)
      ∧ r.diffPercentage
          = toFixed2 ((r.pixelDiff : ℚ) / ((b.width : ℚ) * b.height) * 100)
      ∧ r.sizeWarning = none
      ∧ (b.data = a.data → r.pixelDiff = 0 ∧ r.diffPercentage = "0.00") := by
  have hcond : b.width = a.width ∧ b.height = a.height := ⟨hw, hh⟩
  have hgen : generateDiff sharpModule b a
      = .ok { pixelDiff := pixelmatchCount b.data a.data b.width b.height 0.1
              diffPercentage := toFixed2
                ((pixelmatchCount b.data a.data b.width b.height 0.1 : ℚ)
                  / ((b.width : ℚ) * b.height) * 100)
              sizeWarning := none } := by
    simp only [generateDiff, if_pos hcond]
  refine ⟨_, hgen, rfl, rfl, rfl, ?_⟩
  intro hdata
  have h0 : pixelmatchCount b.data a.data b.width b.height 0.1 = 0 := by
    rw [hdata]
    exact pixelmatchCount_self _ _ _
  refine ⟨h0, ?_⟩
  show toFixed2 _ = "0.00"
  rw [h0]
  simpa using toFixed2_zero

/-- Witness for C1: the 1×1 white image compared against itself yields a
zero pixel diff and the percentage string `"0.00"`. -/
theorem generateDiff_counts_thresholded_pixels_witness :
    ∃ r : DiffResult,
      generateDiff (none : Option (Image → ℕ → ℕ → Option Image)) whiteImg1 whiteImg1 = .ok r
      ∧ r.pixelDiff = 0 ∧ r.diffPercentage = "0.00" := by
  obtain ⟨r, hr, -, -, -, hid⟩ :=
    generateDiff_counts_thresholded_pixels none whiteImg1 whiteImg1 rfl rfl (by decide)
  exact ⟨r, hr, hid rfl⟩

/-- Claim C2, amended: for dimension-mismatched inputs, PROVIDED the sharp
module itself loads, `generateDiff` returns a result whose `sizeWarning` is
set, and the geometry is reconciled so the two compared buffers each hold
exactly `width * height` pixels for the dimensions passed to pixelmatch (no
out-of-bounds access): a successful resize replaces the after image by one
resampled to the before image's dimensions, and a failed resize pads both
images to the element-wise maximum dimensions with each original at the
top-left origin. -/
theorem generateDiff_mismatch_reconciles (resize : Image → ℕ → ℕ → Option Image)
    (hres : ∀ img w h r, resize img w h = some r →
      r.width = w ∧ r.height = h ∧ r.data.length = w * h)
    (b a : Image) (hb : b.wellFormed) (ha : a.wellFormed)
    (hne : ¬(b.width = a.width ∧ b.height = a.height)) :
    (∃ r : DiffResult, generateDiff (some resize) b a = .ok r
      ∧ r.sizeWarning = some (sizeWarningMsg b a))
    ∧ (reconcileMismatch resize b a).cmpBefore.data.length
        = (reconcileMismatch resize b a).width * (reconcileMismatch resize b a).height
    ∧ (reconcileMismatch resize b a).cmpAfter.data.length
        = (reconcileMismatch resize b a).width * (reconcileMismatch resize b a).height
    ∧ (∀ rz, resize a b.width b.height = some rz →
        reconcileMismatch resize b a = ⟨b, rz, b.width, b.height⟩)
    ∧ (resize a b.width b.height = none →
        reconcileMismatch resize b a =
          ⟨padTo b (max b.width a.width) (max b.height a.height),
           padTo a (max b.width a.width) (max b.height a.height),
           max b.width a.width, max b.height a.height⟩) := by
  have hgen : ∃ r : DiffResult, generateDiff (some resize) b a = .ok r
      ∧ r.sizeWarning = some (sizeWarningMsg b a) := by
    simp only [generateDiff, if_neg hne]
    exact ⟨_, rfl, rfl⟩
  cases hc : resize a b.width b.height with
  | some rz =>
    have hrec : reconcileMismatch resize b a = ⟨b, rz, b.width, b.height⟩ := by
      simp [reconcileMismatch, hc]
    obtain ⟨hrw, hrh, hrl⟩ := hres a b.width b.height rz hc
    refine ⟨hgen, ?_, ?_, ?_, ?_⟩
    · rw [hrec]; exact hb
    · rw [hrec]; exact hrl
    · intro rz2 hc2
      injection hc2 with h2
      subst h2
      exact hrec
    · intro hc2
      exact Option.noConfusion hc2
  | none =>
    have hrec : reconcileMismatch resize b a =
        ⟨padTo b (max b.width a.width) (max b.height a.height),
         padTo a (max b.width a.width) (max b.height a.height),
         max b.width a.width, max b.height a.height⟩ := by
      simp [reconcileMismatch, hc]
    refine ⟨hgen, ?_, ?_, ?_, fun _ => hrec⟩
    · rw [hrec]; exact padTo_length _ _ _
    · rw [hrec]; exact padTo_length _ _ _
    · intro rz2 hc2
      exact Option.noConfusion hc2

/-- Witness for the amended C2: a 1×1 and a 2×1 image with a resize pipeline
that always fails still produce a result carrying the size warning. -/
theorem generateDiff_mismatch_reconciles_witness :
    ∃ r : DiffResult,
      generateDiff (some (fun _ _ _ => none)) blackImg1 blackImg2 = .ok r
      ∧ r.sizeWarning = some (sizeWarningMsg blackImg1 blackImg2) :=
  (generateDiff_mismatch_reconciles (fun _ _ _ => none)
    (by intro img w h r hr; cases hr) blackImg1 blackImg2 rfl rfl (by decide)).1

/-- Counterexample to C2 as stated: when the resize module is unavailable
(`require("sharp")` at `src/index.js:1152` throws, being outside the `try`
block), `generateDiff` on dimension-mismatched images does not return a
result object at all — the exception escapes, so no `sizeWarning` is ever
delivered. -/
theorem generateDiff_sharp_require_escapes :
    generateDiff none blackImg1 blackImg2 = .error "Cannot find module sharp" := rfl

/-- Claim C3: the orchestrator loop records an error entry carrying id,
beforeUrl, afterUrl and error for any pair whose processing
throws and continues with the next pair; a two-pair batch with one failing
and one succeeding pair yields exactly two results, one error-bearing and
one metric-bearing, and the batch is never aborted (the result list always
has one entry per input pair). -/
theorem runVRT_isolates_pair_failures (pairs : List UrlPair) (opts : Options)
    (env : CaptureConfig → ℕ → Except String PairMetrics) :
    (runVRT pairs opts env).length = pairs.length
    ∧ (∀ (i : ℕ) (e : String), env (captureConfig opts) i = .error e →
        ∀ (hi : i < (runVRT pairs opts env).length),
          (runVRT pairs opts env).get ⟨i, hi⟩
            = { id := pairId i
                beforeUrl := (pairs.getD i ⟨"", ""⟩).before
                afterUrl := (pairs.getD i ⟨"", ""⟩).after
                metrics := none
                error := some e })
    ∧ (∀ (p1 p2 : UrlPair) (e : String) (m : PairMetrics)
        (env2 : CaptureConfig → ℕ → Except String PairMetrics),
        env2 (captureConfig opts) 0 = .error e →
        env2 (captureConfig opts) 1 = .ok m →
        (runVRT [p1, p2] opts env2).length = 2
        ∧ (runVRT [p1, p2] opts env2).countP (fun r => r.error.isSome) = 1
        ∧ (runVRT [p1, p2] opts env2).countP (fun r => r.metrics.isSome) = 1) := by
  refine ⟨by simp [runVRT], ?_, ?_⟩
  · intro i e he hi
    simp only [runVRT, List.get_eq_getElem, List.getElem_map, List.getElem_range]
    simp [processPair, he]
  · intro p1 p2 e m env2 h0 h1
    have hrun : runVRT [p1, p2] opts env2
        = [processPair (env2 (captureConfig opts)) 0 p1,
           processPair (env2 (captureConfig opts)) 1 p2] := rfl
    rw [hrun]
    simp [processPair, h0, h1, List.countP_cons]

/-- Witness for C3: a concrete two-pair batch whose first pair fails with a
navigation error yields two results, one with an error and one with
metrics. -/
theorem runVRT_isolates_pair_failures_witness :
    (runVRT [⟨"https://a.test/x", "https://a.test/y"⟩,
             ⟨"https://b.test/x", "https://b.test/y"⟩] sampleOptions envFailFirst).length = 2
    ∧ (runVRT [⟨"https://a.test/x", "https://a.test/y"⟩,
               ⟨"https://b.test/x", "https://b.test/y"⟩] sampleOptions envFailFirst).countP
        (fun r => r.error.isSome) = 1
    ∧ (runVRT [⟨"https://a.test/x", "https://a.test/y"⟩,
               ⟨"https://b.test/x", "https://b.test/y"⟩] sampleOptions envFailFirst).countP
        (fun r => r.metrics.isSome) = 1 :=
  (runVRT_isolates_pair_failures [] sampleOptions envFailFirst).2.2
    ⟨"https://a.test/x", "https://a.test/y"⟩ ⟨"https://b.test/x", "https://b.test/y"⟩
    "net::ERR_NAME_NOT_RESOLVED" sampleMetrics envFailFirst rfl rfl

/-- Claim C4: the result list has one entry per input pair in input order;
the entry for the i-th pair carries id `pair-<i+1>`, its pair's URLs, and
exactly one of a metric set or an error string; distinct indices always get
distinct ids. -/
theorem runVRT_result_list_shape (pairs : List UrlPair) (opts : Options)
    (env : CaptureConfig → ℕ → Except String PairMetrics) :
    (runVRT pairs opts env).length = pairs.length
    ∧ (∀ (i : ℕ) (hi : i < (runVRT pairs opts env).length),
        ((runVRT pairs opts env).get ⟨i, hi⟩).id = pairId i
        ∧ ((runVRT pairs opts env).get ⟨i, hi⟩).beforeUrl = (pairs.getD i ⟨"", ""⟩).before
        ∧ ((runVRT pairs opts env).get ⟨i, hi⟩).afterUrl = (pairs.getD i ⟨"", ""⟩).after
        ∧ (((runVRT pairs opts env).get ⟨i, hi⟩).metrics.isSome
              ∧ ((runVRT pairs opts env).get ⟨i, hi⟩).error = none
            ∨ ((runVRT pairs opts env).get ⟨i, hi⟩).metrics = none
              ∧ ((runVRT pairs opts env).get ⟨i, hi⟩).error.isSome))
    ∧ (∀ i j : ℕ, i ≠ j → pairId i ≠ pairId j) := by
  refine ⟨by simp [runVRT], ?_, ?_⟩
  · intro i hi
    simp only [runVRT, List.get_eq_getElem, List.getElem_map, List.getElem_range]
    cases he : env (captureConfig opts) i with
    | ok m => simp [processPair, he]
    | error e => simp [processPair, he]
  · intro i j hij h
    exact hij (pairId_inj i j h)

/-- Witness for C4: in a concrete one-pair run the single entry has id
`pair-1`, and the ids of indices 0 and 1 differ. -/
theorem runVRT_result_list_shape_witness :
    ((runVRT [⟨"https://a.test/x", "https://a.test/y"⟩] sampleOptions envOk).get
        ⟨0, by decide⟩).id = pairId 0
    ∧ pairId 0 ≠ pairId 1 := by
  have h := runVRT_result_list_shape
    [⟨"https://a.test/x", "https://a.test/y"⟩] sampleOptions envOk
  exact ⟨(h.2.1 0 (by decide)).1, h.2.2 0 1 (by decide)⟩

/-- Claim C5: each Stabilizer sub-routine wraps its whole body in
try/catch, so whatever its awaited steps do, `maskVideos`,
`disableAnimations` and `triggerLazyLoading` always return normally (an
`ok` value carrying at most a logged warning) and never propagate an
exception to their caller. -/
theorem stabilizers_never_propagate (s1 s2 s3 : List (Except String Unit)) :
    (∃ l, maskVideosRun s1 = .ok l)
    ∧ (∃ l, disableAnimationsRun s2 = .ok l)
    ∧ (∃ l, triggerLazyLoadingRun s3 = .ok l) := by
  refine ⟨?_, ?_, ?_⟩
  · cases h : runSteps s1 with
    | ok u => exact ⟨[], by simp [maskVideosRun, h]⟩
    | error e =>
      exact ⟨["    Failed to mask dynamic content: " ++ e], by simp [maskVideosRun, h]⟩
  · cases h : runSteps s2 with
    | ok u => exact ⟨[], by simp [disableAnimationsRun, h]⟩
    | error e =>
      exact ⟨["    Failed to disable animations: " ++ e], by simp [disableAnimationsRun, h]⟩
  · cases h : runSteps s3 with
    | ok u => exact ⟨[], by simp [triggerLazyLoadingRun, h]⟩
    | error e =>
      exact ⟨["    Stable lazy loading failed: " ++ e], by simp [triggerLazyLoadingRun, h]⟩

/-- Claim C6, behavior at the failing input: on a page exposing all five
animation libraries, the `disableAnimations` evaluate callback ends at the
`return new Promise(...)` of `src/index.js:573`, so none of the library
suppressions (nor the animation-event capture) located after that `return`
ever takes effect. -/
theorem disableAnimations_dead_library_code :
    disableAnimationsEval allLibsPage initialAnimState
      = { rafOverridden := true
          timersOverridden := true
          webAnimationsFinished := true
          jqueryFxOff := false
          gsapPaused := false
          animePaused := false
          velocityMocked := false
          aosDisabled := false
          animationEventsBlocked := false } := rfl

/-- Claim C7: the animation-suppression callback installs a
`requestAnimationFrame` override that schedules the callback on a zero-delay
timer and a timer override that coerces one-shot delays under 100ms to 0 and
repeating intervals under 100ms to 10000ms, while passing delays of 100ms or
more through unchanged. -/
theorem animation_timer_coercion :
    rafTimerDelay = 0
    ∧ (∀ libs s, (disableAnimationsEval libs s).rafOverridden = true
        ∧ (disableAnimationsEval libs s).timersOverridden = true)
    ∧ (∀ d : ℤ, d < 100 → coercedTimeoutDelay d = 0 ∧ coercedIntervalDelay d = 10000)
    ∧ (∀ d : ℤ, 100 ≤ d → coercedTimeoutDelay d = d ∧ coercedIntervalDelay d = d) := by
  refine ⟨rfl, fun libs s => ⟨rfl, rfl⟩, ?_, ?_⟩
  · intro d hd
    simp [coercedTimeoutDelay, coercedIntervalDelay, hd]
  · intro d hd
    have hnd : ¬ d < 100 := by omega
    simp [coercedTimeoutDelay, coercedIntervalDelay, hnd]

/-- Witness for C7: a 16ms one-shot delay becomes 0, a 16ms interval becomes
10000ms, and 250ms delays pass through unchanged. -/
theorem animation_timer_coercion_witness :
    coercedTimeoutDelay 16 = 0 ∧ coercedIntervalDelay 16 = 10000
    ∧ coercedTimeoutDelay 250 = 250 ∧ coercedIntervalDelay 250 = 250 :=
  ⟨(animation_timer_coercion.2.2.1 16 (by decide)).1,
   (animation_timer_coercion.2.2.1 16 (by decide)).2,
   (animation_timer_coercion.2.2.2 250 (by decide)).1,
   (animation_timer_coercion.2.2.2 250 (by decide)).2⟩

/-- Claim C8: the enabled Stabilizer sub-routines run in the fixed order
animations, then lazy loading, then masking, and a routine disabled via its
option is not invoked at all, leaving its aspect of the page untouched. -/
theorem stabilization_order_and_toggles (cfg : CaptureConfig) (p : PageStab) :
    (stabilizePage cfg p).2
      = (if cfg.disableAnimations then [StabStep.animations] else [])
        ++ (if cfg.lazyLoading then [StabStep.lazyLoad] else [])
        ++ (if cfg.maskVideos then [StabStep.masking] else [])
    ∧ (cfg.disableAnimations = false →
        (stabilizePage cfg p).1.animStyleInjected = p.animStyleInjected
        ∧ StabStep.animations ∉ (stabilizePage cfg p).2)
    ∧ (cfg.lazyLoading = false →
        (stabilizePage cfg p).1.lazyAttributesPromoted = p.lazyAttributesPromoted
        ∧ StabStep.lazyLoad ∉ (stabilizePage cfg p).2)
    ∧ (cfg.maskVideos = false →
        (stabilizePage cfg p).1.masksAdded = p.masksAdded
        ∧ StabStep.masking ∉ (stabilizePage cfg p).2) := by
  rcases cfg with ⟨w, h, sd, lazy, anim, mask, color, ua⟩
  cases lazy <;> cases anim <;> cases mask <;>
    simp [stabilizePage]

/-- Witness for C8: with all three routines disabled, the invocation trace
is empty and a fresh page is left completely untouched. -/
theorem stabilization_order_and_toggles_witness :
    (stabilizePage disabledConfig freshPage).2 = []
    ∧ (stabilizePage disabledConfig freshPage).1.animStyleInjected
        = freshPage.animStyleInjected
    ∧ (stabilizePage disabledConfig freshPage).1.lazyAttributesPromoted
        = freshPage.lazyAttributesPromoted
    ∧ (stabilizePage disabledConfig freshPage).1.masksAdded = freshPage.masksAdded := by
  have h := stabilization_order_and_toggles disabledConfig freshPage
  exact ⟨by rw [h.1]; rfl, (h.2.1 rfl).1, (h.2.2.1 rfl).1, (h.2.2.2 rfl).1⟩

/-- Claim C9: if the full-page screenshot fails, the Capturer retries
exactly once (after a delay and after scrolling to the top); a successful
first attempt means no retry; a failing retry propagates its error; the
number of attempts never exceeds two. -/
theorem screenshot_single_retry (a1 a2 : Except String Unit) :
    (∀ u, a1 = .ok u → takeScreenshotWithRetry a1 a2 = .ok (1, false))
    ∧ (∀ e u, a1 = .error e → a2 = .ok u → takeScreenshotWithRetry a1 a2 = .ok (2, true))
    ∧ (∀ e e2, a1 = .error e → a2 = .error e2 → takeScreenshotWithRetry a1 a2 = .error e2)
    ∧ (∀ n b, takeScreenshotWithRetry a1 a2 = .ok (n, b) → 1 ≤ n ∧ n ≤ 2) := by
  cases a1 with
  | ok u =>
    refine ⟨fun _ _ => rfl, ?_, ?_, ?_⟩
    · intro e u2 h; cases h
    · intro e e2 h; cases h
    · intro n b h
      injection h with h2
      injection h2 with hn hb
      omega
  | error e1 =>
    cases a2 with
    | ok u =>
      refine ⟨?_, fun _ _ _ _ => rfl, ?_, ?_⟩
      · intro u2 h; cases h
      · intro e e2 _ h; cases h
      · intro n b h
        injection h with h2
        injection h2 with hn hb
        omega
    | error e2 =>
      refine ⟨?_, ?_, ?_, ?_⟩
      · intro u2 h; cases h
      · intro e u2 _ h; cases h
      · intro e e3 _ h
        injection h with h2
        subst h2
        rfl
      · intro n b h; cases h

/-- Witness for C9: a failed first screenshot followed by a successful retry
takes two attempts with a scroll to top; two failures propagate the second
error. -/
theorem screenshot_single_retry_witness :
    takeScreenshotWithRetry (.error "screenshot timeout") (.ok ()) = .ok (2, true)
    ∧ takeScreenshotWithRetry (.error "screenshot timeout") (.error "second failure")
        = .error "second failure" :=
  ⟨(screenshot_single_retry (.error "screenshot timeout") (.ok ())).2.1
      "screenshot timeout" () rfl rfl,
   (screenshot_single_retry (.error "screenshot timeout") (.error "second failure")).2.2.1
      "screenshot timeout" "second failure" rfl rfl⟩

/-- Claim C10: the concurrency option is parsed into `maxConcurrency` and
never consulted; two runs of `runVRT` differing only in the concurrency
value produce identical result lists. -/
theorem concurrency_option_has_no_effect (pairs : List UrlPair) (o : Options)
    (env : CaptureConfig → ℕ → Except String PairMetrics) (c c2 : ℕ) :
    runVRT pairs { o with concurrency := c } env
      = runVRT pairs { o with concurrency := c2 } env := rfl

end QuickVRT
